import Mathlib

/-!
Verification development for the MediTalks backend (Python).

Strings are modelled as `List Char` (one element per Unicode code point,
matching Python `str` indexing and `len`).  The regular-expression classes
`\w` and `\s` are modelled on their ASCII fragments (`[A-Za-z0-9_]` and
`[ \t\n\r\v\f]`); every concrete input used in this development stays within
that fragment.  External collaborators (the two generative AI providers, the
two PDF extraction libraries, the language detector, the HTTP transport) are
modelled as explicit parameters; an `Option`/`Except` value `none`/`error`
stands for a Python exception or a falsy (`None`/empty) return.
-/

namespace Meditalks

/-- Convert a Lean string literal into the `List Char` representation. -/
def strL (s : String) : List Char := s.toList

/-- Python `\s` / `str.strip()` whitespace class (ASCII fragment):
space, tab, newline, carriage return, vertical tab, form feed. -/
def isPySpace (c : Char) : Bool :=
  c = ' ' || c = '\t' || c = '\n' || c = '\r' || c = '\x0b' || c = '\x0c'

/-- Python `\w` word-character class (ASCII fragment): letters, digits, `_`. -/
def isWordChar (c : Char) : Bool :=
  c.isAlpha || c.isDigit || c = '_'

/-- Python `str.strip()`: drop leading and trailing whitespace. -/
def pyStrip (l : List Char) : List Char :=
  ((l.dropWhile isPySpace).reverse.dropWhile isPySpace).reverse

/-- Python `str.lstrip(chars)`: drop leading characters from `set`. -/
def pyLstripSet (set : List Char) (l : List Char) : List Char :=
  l.dropWhile (fun c => set.contains c)

/-- Python `str.lower()` (ASCII fragment). -/
def pyLower (l : List Char) : List Char := l.map Char.toLower

/-- Python `str.split(sep)` for a single-character separator: keeps empty
pieces, one more piece than separators. -/
def pySplit (sep : Char) : List Char → List (List Char)
  | [] => [[]]
  | c :: rest =>
    match pySplit sep rest with
    | [] => [[]]
    | h :: t => if c = sep then [] :: h :: t else (c :: h) :: t

/-- Python `str.split()` with no argument: split on whitespace runs,
dropping empty pieces.  `acc` holds the current word, reversed. -/
def pySplitWsAux (acc : List Char) : List Char → List (List Char)
  | [] => if acc.isEmpty then [] else [acc.reverse]
  | c :: rest =>
    if isPySpace c then
      if acc.isEmpty then pySplitWsAux [] rest
      else acc.reverse :: pySplitWsAux [] rest
    else pySplitWsAux (c :: acc) rest

/-- Python `str.split()` with no argument. -/
def pySplitWs (l : List Char) : List (List Char) := pySplitWsAux [] l

/-- Python `sep.join(pieces)`. -/
def pyJoin (sep : List Char) (pieces : List (List Char)) : List Char :=
  match pieces with
  | [] => []
  | p :: rest => p ++ (rest.map (fun q => sep ++ q)).flatten

/-!
Executable embedding of the three forbidden-pattern regexes of
`validation_service.py` (compiled with `re.IGNORECASE`):
  `<script.*?>.*?</script>`, `javascript:`, `on\w+\s*=`.
A matcher takes the text at the current position and returns `some rest`
(the text after the match) or `none`.  `.` does not match a newline.
-/

/-- Case-insensitive literal prefix match; `pat` is given lowercase.
Returns the remaining text after the literal. -/
def matchCILit (pat : List Char) (l : List Char) : Option (List Char) :=
  match pat, l with
  | [], l => some l
  | _ :: _, [] => none
  | p :: ps, c :: cs => if c.toLower = p then matchCILit ps cs else none

/-- Tail of the script-tag regex: lazy `.*?</script>`. -/
def scriptInner2 : List Char → Option (List Char)
  | [] => none
  | c :: cs =>
    match matchCILit (strL "</script>") (c :: cs) with
    | some r => some r
    | none => if c = '\n' then none else scriptInner2 cs

/-- Middle of the script-tag regex: lazy `.*?>` followed by `scriptInner2`,
with backtracking (a failed close is retried with a longer `.*?`). -/
def scriptInner1 : List Char → Option (List Char)
  | [] => none
  | c :: cs =>
    (if c = '>' then scriptInner2 cs else none) <|>
      (if c = '\n' then none else scriptInner1 cs)

/-- Matcher for `<script.*?>.*?</script>` at the current position. -/
def matchScriptAt (l : List Char) : Option (List Char) :=
  match matchCILit (strL "<script") l with
  | some r => scriptInner1 r
  | none => none

/-- Matcher for the literal `javascript:` at the current position. -/
def matchJsAt (l : List Char) : Option (List Char) :=
  matchCILit (strL "javascript:") l

/-- Matcher for `on\w+\s*=` at the current position.  The classes `\w`,
`\s` and the literal `=` are pairwise disjoint, so the greedy quantifiers
are deterministic. -/
def matchEvtAt : List Char → Option (List Char)
  | c1 :: c2 :: rest =>
    if c1.toLower = 'o' && c2.toLower = 'n' then
      match rest with
      | c3 :: _ =>
        if isWordChar c3 then
          match (rest.dropWhile isWordChar).dropWhile isPySpace with
          | '=' :: r => some r
          | _ => none
        else none
      | [] => none
    else none
  | _ => none

/-- Embedding of re.search: does the matcher succeed at some position of `l`? -/
def reSearch (matchAt : List Char → Option (List Char)) : List Char → Bool
  | [] => (matchAt []).isSome
  | c :: cs => (matchAt (c :: cs)).isSome || reSearch matchAt cs

/-- Worker for re.sub: replace every non-overlapping match (scanning left to
right) by `repl`.  All matchers used here consume at least one character,
so fuel equal to the length of the text suffices. -/
def reSubAllAux (matchAt : List Char → Option (List Char)) (repl : List Char) :
    Nat → List Char → List Char
  | _, [] => []
  | 0, l => l
  | n + 1, c :: cs =>
    match matchAt (c :: cs) with
    | some r => repl ++ reSubAllAux matchAt repl n r
    | none => c :: reSubAllAux matchAt repl n cs

/-- Embedding of re.sub(pattern, repl, text) for the matchers of this development. -/
def reSubAll (matchAt : List Char → Option (List Char)) (repl : List Char)
    (l : List Char) : List Char :=
  reSubAllAux matchAt repl l.length l

/-- Collapse worker for the whitespace-collapsing substitution of
`sanitize_input` and `_clean_text`; `prev` records whether
the previous character was whitespace (already replaced by one space). -/
def collapseWsAux : Bool → List Char → List Char
  | _, [] => []
  | prev, c :: rest =>
    if isPySpace c then
      if prev then collapseWsAux true rest else ' ' :: collapseWsAux true rest
    else c :: collapseWsAux false rest

/-- Embedding of the whitespace-collapsing substitution (pattern
one-or-more whitespace, replacement a single space): each maximal
whitespace run becomes one space. -/
def collapseWs (l : List Char) : List Char := collapseWsAux false l

/-- Greedy `\s*` then a literal newline, with backtracking, for the
pattern `\n\s*\n\s*\n`; `k` is the continuation after the literal. -/
def wsNlThen (k : List Char → Option (List Char)) : List Char → Option (List Char)
  | [] => none
  | c :: cs =>
    if isPySpace c then
      (wsNlThen k cs) <|> (if c = '\n' then k cs else none)
    else none

/-- Matcher for `\n\s*\n\s*\n` at the current position (the pattern of
the second substitution of `_clean_text`: three newlines separated by
optional whitespace, replaced by two newlines). -/
def match3NlAt : List Char → Option (List Char)
  | [] => none
  | c :: cs => if c = '\n' then wsNlThen (wsNlThen some) cs else none

/-!
## `services/validation_service.py`
-/

/-- Does the text match one of the three forbidden patterns of
`ValidationService.forbidden_patterns`?  (`validate_message` loops over
the patterns in order; only whether some pattern matches is observable.) -/
def forbiddenHit (l : List Char) : Bool :=
  reSearch matchScriptAt l || reSearch matchJsAt l || reSearch matchEvtAt l

/-- Result dictionary of `ValidationService.validate_message`. -/
structure ValidationResult where
  valid : Bool
  message : List Char
  cleaned_message : Option (List Char)
deriving DecidableEq

/-- Embedding of ValidationService.validate_message.  The argument is `none` when the
Python caller passes `None` (or a non-string); the empty list models the
empty string (both are caught by `if not message or not isinstance(...)`).
The `_contains_medical_content` probe only logs a warning and does not
affect the result, so it is not modelled. -/
def validate_message (message : Option (List Char)) : ValidationResult :=
  match message with
  | none => ⟨false, strL "Message must be a non-empty string", none⟩
  | some msg =>
    if msg = [] then ⟨false, strL "Message must be a non-empty string", none⟩
    else
      let m := pyStrip msg
      if m.length < 10 then
        ⟨false, strL "Message must be at least 10 characters long", none⟩
      else if m.length > 5000 then
        ⟨false, strL "Message must not exceed 5000 characters", none⟩
      else if forbiddenHit m then
        ⟨false, strL "Message contains potentially harmful content", none⟩
      else
        ⟨true, strL "Message is valid", some m⟩

/-- Embedding of ValidationService.sanitize_input: remove the three forbidden patterns
(in the order of `forbidden_patterns`, empty replacement), collapse
whitespace runs to single spaces, and strip. -/
def sanitize_input (text : List Char) : List Char :=
  if text = [] then []
  else
    let t1 := reSubAll matchScriptAt [] text
    let t2 := reSubAll matchJsAt [] t1
    let t3 := reSubAll matchEvtAt [] t2
    pyStrip (collapseWs t3)

/-!
## `services/cultural_adaptation_service.py`
-/

/-- One entry of `CulturalAdaptationService.context_templates`. -/
structure ContextTemplate where
  language : List Char
  cultural_notes : List Char
  communication_style : List Char

/-- The table CulturalAdaptationService.context_templates as a lookup
(`dict.get` returning `none` for an unknown key). -/
def context_templates (c : List Char) : Option ContextTemplate :=
  if c = strL "tagalog-rural" then
    some ⟨strL "Tagalog/Filipino",
      strL "Rural Philippines, traditional family values, respect for elders, community-oriented healthcare",
      strL "Respectful, family-inclusive, uses local terms and metaphors"⟩
  else if c = strL "thai-low-literacy" then
    some ⟨strL "Thai",
      strL "Low literacy population, Buddhist influences, traditional medicine awareness",
      strL "Simple language, visual metaphors, respectful tone"⟩
  else if c = strL "khmer-indigenous" then
    some ⟨strL "Khmer/Cambodian",
      strL "Indigenous communities, traditional healing practices, Buddhist beliefs",
      strL "Community-centered, respectful of traditional practices"⟩
  else if c = strL "vietnamese-elderly" then
    some ⟨strL "Vietnamese",
      strL "Elderly population, Confucian values, family hierarchy, traditional medicine",
      strL "Highly respectful, family-oriented, acknowledges traditional practices"⟩
  else if c = strL "malay-traditional" then
    some ⟨strL "Malay/Bahasa Melayu",
      strL "Traditional Malay communities, Islamic influences, family-centered care",
      strL "Respectful, Islamic-appropriate, family-inclusive"⟩
  else none

/-- The five context ids carried by the context tables of both providers. -/
def contextCatalogIds : List (List Char) :=
  [strL "tagalog-rural", strL "thai-low-literacy", strL "khmer-indigenous",
   strL "vietnamese-elderly", strL "malay-traditional"]

/-- Embedding of CulturalAdaptationService._build_adaptation_prompt. -/
def build_adaptation_prompt (message : List Char) (info : ContextTemplate) :
    List Char :=
  strL "\nYou are a medical communication expert specializing in culturally sensitive healthcare messaging.\n\nTask: Adapt the following medical message for a specific cultural context. Respond ONLY in "
    ++ info.language
    ++ strL ".\n\nOriginal Message: \"" ++ message
    ++ strL "\"\n\nTarget Culture Information:\n- Language: " ++ info.language
    ++ strL "\n- Cultural Context: " ++ info.cultural_notes
    ++ strL "\n- Communication Style: " ++ info.communication_style
    ++ strL "\n\nInstructions:\n1. Translate and adapt the message to be culturally appropriate\n2. Use respectful, clear language appropriate for the target audience\n3. Consider cultural beliefs and healthcare practices\n4. Maintain the essential medical information while making it culturally sensitive\n5. If applicable, acknowledge traditional practices respectfully\n6. Use appropriate honorifics and respectful tone\n\nProvide ONLY the adapted message in "
    ++ info.language
    ++ strL ". Do not use English or provide explanations.\n"

/-- Embedding of CulturalAdaptationService._fallback_adaptation: the hard-coded
per-context templates, with a generic English default for unknown
contexts.  (The function also looks up a `language` value that does not
influence the returned string.) -/
def cultural_fallback_adaptation (message cultural_context : List Char) :
    List Char :=
  if cultural_context = strL "tagalog-rural" then
    strL "Mahalagang paalala tungkol sa inyong kalusugan: " ++ message
      ++ strL "\n\nPakisuyo, kumonsulta sa inyong doktor."
  else if cultural_context = strL "thai-low-literacy" then
    strL "คำแนะนำสำคัญเกี่ยวกับสุขภาพ: " ++ message ++ strL "\n\nโปรดปรึกษาแพทย์"
  else if cultural_context = strL "khmer-indigenous" then
    strL "ការណែនាំសំខាន់អំពីសុខភាព: " ++ message ++ strL "\n\nសូមពិគ្រោះជាមួយវេជ្ជបណ្ឌិត"
  else if cultural_context = strL "vietnamese-elderly" then
    strL "Lời khuyên quan trọng về sức khỏe: " ++ message
      ++ strL "\n\nXin hãy tham khảo ý kiến bác sĩ"
  else if cultural_context = strL "malay-traditional" then
    strL "Nasihat penting mengenai kesihatan: " ++ message ++ strL "\n\nSila rujuk doktor"
  else
    strL "Important health advice: " ++ message
      ++ strL "\n\nPlease consult with your doctor."

/-- A Gemini model handle: the prompt sent to `generate_content` maps to
`some text` (the `response.text`) or `none` (an exception, or a falsy
`response.text`).  A present but empty `response.text` is also falsy in
Python, so it is represented by `some []`. -/
abbrev GeminiModel := List Char → Option (List Char)

/-- Embedding of CulturalAdaptationService.generate_adaptation; `model` is
`self.model` (`none` when Gemini failed to initialize). -/
def generate_adaptation (model : Option GeminiModel)
    (message cultural_context : List Char) : List Char :=
  match model with
  | none => cultural_fallback_adaptation message cultural_context
  | some gen =>
    match context_templates cultural_context with
    | none => cultural_fallback_adaptation message cultural_context
    | some info =>
      match gen (build_adaptation_prompt message info) with
      | none => cultural_fallback_adaptation message cultural_context
      | some t =>
        if t = [] then cultural_fallback_adaptation message cultural_context
        else pyStrip t

/-!
## `services/sealion_service.py`
-/

/-- One entry of `SEALionService.sea_context_templates`. -/
structure SeaContextTemplate where
  language : List Char
  cultural_notes : List Char
  communication_style : List Char
  medical_considerations : List Char

/-- The table SEALionService.sea_context_templates as a lookup. -/
def sea_context_templates (c : List Char) : Option SeaContextTemplate :=
  if c = strL "tagalog-rural" then
    some ⟨strL "Filipino/Tagalog",
      strL "Rural Filipino community with strong family values, Catholic influences, and traditional healing practices",
      strL "Respectful, family-oriented, uses \"po\" and \"opo\" for respect",
      strL "Family involvement in decisions, traditional and modern medicine integration"⟩
  else if c = strL "thai-low-literacy" then
    some ⟨strL "Thai",
      strL "Buddhist Thai community with low literacy, prefers simple language and visual communication",
      strL "Simple, respectful, uses appropriate Buddhist terminology",
      strL "Simple explanations, traditional medicine awareness, hierarchical respect"⟩
  else if c = strL "khmer-indigenous" then
    some ⟨strL "Khmer/Cambodian",
      strL "Indigenous Khmer community with strong Buddhist beliefs and traditional practices",
      strL "Community-oriented, oral tradition, respectful of traditional healers",
      strL "Traditional healing integration, community consensus in decisions"⟩
  else if c = strL "vietnamese-elderly" then
    some ⟨strL "Vietnamese",
      strL "Elderly Vietnamese with Confucian values and family-centered healthcare",
      strL "Formal, hierarchical respect, family involvement",
      strL "Intergenerational healthcare decisions, traditional medicine integration"⟩
  else if c = strL "malay-traditional" then
    some ⟨strL "Malay/Bahasa Melayu",
      strL "Traditional Malay community with Islamic influences and family involvement",
      strL "Islamic considerations, gender-appropriate, family-oriented",
      strL "Halal considerations, Islamic medical ethics, family involvement"⟩
  else none

/-- Embedding of SEALionService._build_sealion_prompt. -/
def build_sealion_prompt (message : List Char) (info : SeaContextTemplate) :
    List Char :=
  strL "As a medical communication expert specializing in Southeast Asian cultures, please adapt the following medical message for the specified cultural context.\n\nTarget Language: "
    ++ info.language
    ++ strL "\nCultural Context: " ++ info.cultural_notes
    ++ strL "\nCommunication Style: " ++ info.communication_style
    ++ strL "\nMedical Considerations: " ++ info.medical_considerations
    ++ strL "\n\nOriginal Medical Message:\n\"" ++ message
    ++ strL "\"\n\nInstructions:\n1. Translate and adapt the message to " ++ info.language
    ++ strL " if not already in that language\n2. Use culturally appropriate communication style and terminology\n3. Consider the specific cultural and medical considerations mentioned\n4. Ensure the medical information remains accurate while being culturally sensitive\n5. Include any necessary cultural context or explanations\n6. Use respectful and appropriate language for the target community\n\nPlease provide the culturally adapted message in "
    ++ info.language ++ strL ":"

/-- Embedding of SEALionService._get_language_code. -/
def get_language_code (language : List Char) : List Char :=
  if language = strL "Filipino/Tagalog" then strL "tl"
  else if language = strL "Thai" then strL "th"
  else if language = strL "Khmer/Cambodian" then strL "km"
  else if language = strL "Vietnamese" then strL "vi"
  else if language = strL "Malay/Bahasa Melayu" then strL "ms"
  else if language = strL "English" then strL "en"
  else strL "en"

/-- Embedding of SEALionService._fallback_adaptation: hard-coded per-context
templates, generic English default for unknown contexts. -/
def sealion_fallback_adaptation (message cultural_context : List Char) :
    List Char :=
  if cultural_context = strL "tagalog-rural" then
    strL "Mahalagang payo sa kalusugan: " ++ message
      ++ strL "\n\nPakipag-usap sa inyong doktor para sa karagdagang impormasyon."
  else if cultural_context = strL "thai-low-literacy" then
    strL "คำแนะนำสำคัญเกี่ยวกับสุขภาพ: " ++ message
      ++ strL "\n\nกรุณาปรึกษาแพทย์สำหรับข้อมูลเพิ่มเติม"
  else if cultural_context = strL "khmer-indigenous" then
    strL "ដំបូន្មានសុខភាពសំខាន់: " ++ message
      ++ strL "\n\nសូមពិគ្រោះជាមួយគ្រូពេទ្យសម្រាប់ព័ត៌មានបន្ថែម"
  else if cultural_context = strL "vietnamese-elderly" then
    strL "Lời khuyên sức khỏe quan trọng: " ++ message
      ++ strL "\n\nVui lòng tham khảo ý kiến bác sĩ để biết thêm thông tin"
  else if cultural_context = strL "malay-traditional" then
    strL "Nasihat kesihatan penting: " ++ message
      ++ strL "\n\nSila rujuk doktor untuk maklumat lanjut"
  else
    strL "Important health advice: " ++ message
      ++ strL "\n\nPlease consult with your doctor for more information."

/-- The SEA-Lion transport `_make_api_request (prompt, language, max_tokens)`;
`none` models an exception, a non-200 status, or a `None` body. -/
abbrev SeaLionApi := List Char → List Char → Nat → Option (List Char)

/-- Embedding of SEALionService.generate_cultural_adaptation; `available` is the
`self.available` flag computed once at startup. -/
def generate_cultural_adaptation (available : Bool) (api : SeaLionApi)
    (message cultural_context : List Char) : List Char :=
  if !available then sealion_fallback_adaptation message cultural_context
  else
    match sea_context_templates cultural_context with
    | none => sealion_fallback_adaptation message cultural_context
    | some info =>
      let prompt := build_sealion_prompt message info
      let language_code := get_language_code info.language
      match api prompt language_code 800 with
      | none => sealion_fallback_adaptation message cultural_context
      | some r =>
        if pyStrip r = [] then sealion_fallback_adaptation message cultural_context
        else pyStrip r

/-!
## `app.py`: the `/api/cultural-adaptation/generate` route
-/

/-- Provider selection of the route handler (`app.py` lines 120-126):
SEA-Lion if available, otherwise the Gemini-backed service. -/
def app_adapted_message (sealionAvailable : Bool) (api : SeaLionApi)
    (geminiModel : Option GeminiModel) (message context : List Char) :
    List Char :=
  if sealionAvailable then
    generate_cultural_adaptation sealionAvailable api message context
  else
    generate_adaptation geminiModel message context

/-- JSON body of a `/api/cultural-adaptation/generate` request;
`none` fields model missing keys (`data.get` with an empty default). -/
structure AdaptRequest where
  message : Option (List Char)
  context : Option (List Char)

/-- Observable part of the HTTP response of the route. -/
structure RouteResponse where
  status : Nat
  success : Bool
  adaptedMessage : Option (List Char)
  errorMessage : Option (List Char)
deriving DecidableEq

/-- The `/api/cultural-adaptation/generate` handler (`app.py`
`generate_adaptation` view).  `data = none` models a request without a
JSON body.  The echoed `originalMessage`/`culturalContext`/`timestamp`
fields are not modelled. -/
def generate_adaptation_route (sealionAvailable : Bool) (api : SeaLionApi)
    (geminiModel : Option GeminiModel) (data : Option AdaptRequest) :
    RouteResponse :=
  match data with
  | none => ⟨400, false, none, some (strL "No JSON data provided")⟩
  | some d =>
    let message := pyStrip (d.message.getD [])
    let context := pyStrip (d.context.getD [])
    if message = [] then ⟨400, false, none, some (strL "Message is required")⟩
    else if context = [] then
      ⟨400, false, none, some (strL "Cultural context is required")⟩
    else
      let v := validate_message (some message)
      if !v.valid then ⟨400, false, none, some v.message⟩
      else
        ⟨200, true,
          some (app_adapted_message sealionAvailable api geminiModel message context),
          none⟩

/-!
## `services/pdf_processing_service.py`
-/

/-- The character class kept by the third substitution of `_clean_text`
(the negated class is replaced by a space): word characters, whitespace,
dot, comma, bang, question mark, semicolon, colon, dash, parentheses,
square brackets, curly brackets, double quote, single quote, slash,
backslash and newline. -/
def isCleanAllowed (c : Char) : Bool :=
  isWordChar c || isPySpace c ||
    [',', '.', '!', '?', ';', ':', '-', '(', ')', '[', ']', '\x7b', '\x7d',
     '"', '\'', '/', '\\', '\n'].contains c

/-- Third substitution of `_clean_text`: each disallowed character becomes
a space (the class matches a single character, so this is a per-character
map). -/
def cleanAllowSub (l : List Char) : List Char :=
  l.map (fun c => if isCleanAllowed c then c else ' ')

/-- Embedding of PDFProcessingService._clean_text: collapse whitespace runs to single
spaces, apply the (by then vacuous) triple-line-break substitution,
replace disallowed characters by spaces, and strip. -/
def clean_text (text : List Char) : List Char :=
  if text = [] then []
  else
    let t1 := collapseWs text
    let t2 := reSubAll match3NlAt (strL "\n\n") t1
    let t3 := cleanAllowSub t2
    pyStrip t3

/-- Result of extracting one PDF page: `Except.error ()` models a raised
per-page exception (it is logged and skipped), `Except.ok t` the returned
page text (`t = []` models both `None` and the empty string, which are
equally falsy at the `if page_text:` check). -/
abbrev PageResult := Except Unit (List Char)

/-- Page loop of `_extract_with_pdfplumber`:  a page that raises is
skipped *and bypasses the `if page_num >= 9: break` check* (the check
sits inside the `try` block after the raise point); an extracted page is
appended when non-falsy, and the loop stops after page index 9. -/
def plumberLoop : Nat → List PageResult → List (List Char)
  | _, [] => []
  | idx, p :: rest =>
    match p with
    | Except.error _ => plumberLoop (idx + 1) rest
    | Except.ok t =>
      let kept := if t = [] then [] else [t]
      kept ++ (if idx ≥ 9 then [] else plumberLoop (idx + 1) rest)

/-- Embedding of PDFProcessingService._extract_with_pdfplumber: joins the per-page
texts with newlines; any error opening the document yields the empty
string. -/
def extract_with_pdfplumber (doc : Except Unit (List PageResult)) : List Char :=
  match doc with
  | Except.error _ => []
  | Except.ok pages => pyJoin (strL "\n") (plumberLoop 0 pages)

/-- Embedding of PDFProcessingService._extract_with_pypdf2: at most the first 10
pages, a raising page is skipped, falsy page text is dropped, pieces are
joined with newlines; a reader error yields the empty string. -/
def extract_with_pypdf2 (doc : Except Unit (List PageResult)) : List Char :=
  match doc with
  | Except.error _ => []
  | Except.ok pages =>
    pyJoin (strL "\n")
      ((pages.take 10).filterMap (fun p =>
        match p with
        | Except.error _ => none
        | Except.ok t => if t = [] then none else some t))

/-- The function langdetect.detect as an external collaborator: `some code` is the
detected ISO code, `none` a raised `LangDetectException`. -/
abbrev Detector := List Char → Option (List Char)

/-- The `language_map` of `_detect_language`. -/
def language_map (code : List Char) : List Char :=
  if code = strL "en" then strL "English"
  else if code = strL "th" then strL "Thai"
  else if code = strL "vi" then strL "Vietnamese"
  else if code = strL "ms" then strL "Malay"
  else if code = strL "km" then strL "Khmer"
  else if code = strL "tl" then strL "Tagalog"
  else if code = strL "fil" then strL "Filipino"
  else code

/-- Embedding of PDFProcessingService._detect_language: "unknown" for short input or
a detector failure, otherwise the mapped code of the first 1000
characters. -/
def detect_language (det : Detector) (text : List Char) : List Char :=
  if (pyStrip text).length < 10 then strL "unknown"
  else
    match det (text.take 1000) with
    | none => strL "unknown"
    | some code => language_map code

/-- A PDF upload as seen by `extract_text_from_pdf`: the two extraction
library behaviours on this file, and whether each of the two
`file.seek(0)` calls raises (`some msg` = raises with message `msg`). -/
structure PdfFile where
  seekErr1 : Option (List Char)
  seekErr2 : Option (List Char)
  plumberDoc : Except Unit (List PageResult)
  pypdfDoc : Except Unit (List PageResult)

/-- Result dictionary of `extract_text_from_pdf`; fields absent from a
branch dictionary are `none`. -/
structure ExtractionResult where
  success : Bool
  error : Option (List Char)
  text : List Char
  detected_language : Option (List Char)
  word_count : Option Nat
  char_count : Option Nat
deriving DecidableEq

/-- Body of the `try` block of `extract_text_from_pdf`; `Except.error e`
models an exception escaping the body with message `e` (`str(e)`). -/
def extractBody (f : PdfFile) (det : Detector) :
    Except (List Char) ExtractionResult :=
  match f.seekErr1 with
  | some e => Except.error e
  | none =>
    let t1 := extract_with_pdfplumber f.plumberDoc
    let step2 : Except (List Char) (List Char) :=
      if t1 = [] || (pyStrip t1).length < 10 then
        match f.seekErr2 with
        | some e => Except.error e
        | none => Except.ok (extract_with_pypdf2 f.pypdfDoc)
      else Except.ok t1
    match step2 with
    | Except.error e => Except.error e
    | Except.ok t =>
      if t = [] || (pyStrip t).length < 10 then
        Except.ok ⟨false, some (strL "Could not extract text from PDF"), [],
          none, none, none⟩
      else
        Except.ok ⟨true, none, clean_text t, some (detect_language det t),
          some (pySplitWs (clean_text t)).length, some (clean_text t).length⟩

/-- Embedding of PDFProcessingService.extract_text_from_pdf: the `try` body with its
catch-all `except` clause. -/
def extract_text_from_pdf (f : PdfFile) (det : Detector) : ExtractionResult :=
  match extractBody f det with
  | Except.ok r => r
  | Except.error e => ⟨false, some e, [], none, none, none⟩

/-- Response parsing of `generate_cultural_solutions` (lines 356-368):
a stripped line is kept when its first character is a digit or the line
starts with `-` or `•`; the kept text is
the line left-stripped of digits, dots, dashes and bullets, then
stripped, and dropped if empty. -/
def parseSolutionLine (line : List Char) : Option (List Char) :=
  let l := pyStrip line
  match l with
  | [] => none
  | c :: _ =>
    if c.isDigit || c = '-' || c = '•' then
      let clean := pyStrip (pyLstripSet (strL "0123456789.-•") l)
      if clean = [] then none else some clean
    else none

/-- Per-line loop of the parser of `generate_cultural_solutions` (the cap
`solutions[:7]` is applied afterwards, in `parseSolutions`). -/
def parseSolutionsLoop : List (List Char) → List (List Char)
  | [] => []
  | line :: rest =>
    match parseSolutionLine line with
    | some s => s :: parseSolutionsLoop rest
    | none => parseSolutionsLoop rest

/-- The parsing applied by `generate_cultural_solutions` to a provider
response: the stripped response text split at newlines, the line filter,
and the
`solutions[:7]` cap. -/
def parseSolutions (responseText : List Char) : List (List Char) :=
  (parseSolutionsLoop (pySplit '\n' (pyStrip responseText))).take 7

/-!
## `services/text_summarization_service.py`
-/

/-- The length_instructions lookup of `_generate_summary`, defaulting to
the medium instruction. -/
def length_instruction (summary_length : List Char) : List Char :=
  if summary_length = strL "short" then strL "1-2 sentences"
  else if summary_length = strL "medium" then strL "3-4 sentences"
  else if summary_length = strL "long" then strL "5-6 sentences"
  else strL "3-4 sentences"

/-- The language_names lookup of `_generate_summary` (the eleven-entry
table), defaulting to English. -/
def summary_language_name (target_language : List Char) : List Char :=
  if target_language = strL "en" then strL "English"
  else if target_language = strL "th" then strL "Thai"
  else if target_language = strL "vi" then strL "Vietnamese"
  else if target_language = strL "ms" then strL "Malay"
  else if target_language = strL "km" then strL "Khmer"
  else if target_language = strL "tl" then strL "Tagalog"
  else if target_language = strL "hi" then strL "Hindi"
  else if target_language = strL "te" then strL "Telugu"
  else if target_language = strL "ta" then strL "Tamil"
  else if target_language = strL "kn" then strL "Kannada"
  else if target_language = strL "bn" then strL "Bengali"
  else strL "English"

/-- The prompt built by `_generate_summary` (the trailing `# Limit for API
efficiency` comment is part of the f-string literal). -/
def summary_prompt (text target_language summary_length : List Char) : List Char :=
  let name := summary_language_name target_language
  strL "\nSummarize the following text in " ++ name
    ++ strL " ONLY. Do not use English in your response.\nThe summary should be "
    ++ length_instruction summary_length
    ++ strL " long and focus on the most important medical information.\nIf this is medical content, prioritize key medical information, instructions, and important health details.\n\nWrite everything in "
    ++ name ++ strL " only.\n\nText to summarize:\n"
    ++ text.take 2000 ++ strL "  # Limit for API efficiency\n"

/-- Sentence-collecting character loop of `_fallback_summary`: grow the
current sentence character by character, close it at `.`/`!`/`?`
(appending the stripped sentence), stop after three sentences; a trailing
unterminated sentence is discarded. -/
def fbSummaryLoop (cur : List Char) (sents : List (List Char)) :
    List Char → List (List Char)
  | [] => sents
  | c :: rest =>
    let cur2 := cur ++ [c]
    if c = '.' || c = '!' || c = '?' then
      let sents2 := sents ++ [pyStrip cur2]
      if sents2.length ≥ 3 then sents2 else fbSummaryLoop [] sents2 rest
    else fbSummaryLoop cur2 sents rest

/-- Embedding of TextSummarizationService._fallback_summary. -/
def fallback_summary (text : List Char) : List Char :=
  if text = [] then strL "No content to summarize."
  else
    let sentences := fbSummaryLoop [] [] text
    let summary := pyStrip (pyJoin (strL " ") sentences)
    let summary2 :=
      if summary.length > 300 then summary.take 300 ++ strL "..." else summary
    if summary2 = [] then strL "Content processed successfully." else summary2

/-- The language_names lookup of `_extract_key_points` (the six-entry
table), defaulting to English. -/
def kp_language_name (target_language : List Char) : List Char :=
  if target_language = strL "en" then strL "English"
  else if target_language = strL "th" then strL "Thai"
  else if target_language = strL "vi" then strL "Vietnamese"
  else if target_language = strL "ms" then strL "Malay"
  else if target_language = strL "km" then strL "Khmer"
  else if target_language = strL "tl" then strL "Tagalog"
  else strL "English"

/-- The prompt built by `_extract_key_points`. -/
def key_points_prompt (text target_language : List Char) : List Char :=
  let name := kp_language_name target_language
  strL "\nExtract 3-5 key points from the following text in " ++ name
    ++ strL " ONLY. Do not use English.\nFormat as a bullet-point list. Focus on the most important information.\nIf this is medical content, prioritize medical instructions, warnings, and key health information.\n\nWrite everything in "
    ++ name ++ strL " only.\n\nText:\n" ++ text.take 2000 ++ strL "\n"

/-- Line test of the parser of `_extract_key_points`: a stripped line is kept
when it starts with `•`, `-` or `*`; the kept text is
the line left-stripped of the three bullet markers, then stripped, and
dropped if empty. -/
def parseKeyPointLine (line : List Char) : Option (List Char) :=
  let l := pyStrip line
  match l with
  | [] => none
  | c :: _ =>
    if c = '•' || c = '-' || c = '*' then
      let clean := pyStrip (pyLstripSet (strL "•-*") l)
      if clean = [] then none else some clean
    else none

/-- Per-line loop of the parser of `_extract_key_points` (the cap at five
is applied afterwards, in `parseKeyPoints`). -/
def parseKeyPointsLoop : List (List Char) → List (List Char)
  | [] => []
  | line :: rest =>
    match parseKeyPointLine line with
    | some s => s :: parseKeyPointsLoop rest
    | none => parseKeyPointsLoop rest

/-- The parsing applied by `_extract_key_points` to a provider response:
the stripped response text split at newlines, the bullet filter, and the
`points[:5]` cap. -/
def parseKeyPoints (responseText : List Char) : List (List Char) :=
  (parseKeyPointsLoop (pySplit '\n' (pyStrip responseText))).take 5

/-- The `medical_keywords` list of `_fallback_key_points`. -/
def fbMedicalKeywords : List (List Char) :=
  [strL "medication", strL "dose", strL "treatment", strL "doctor",
   strL "hospital", strL "symptoms", strL "diagnosis", strL "prescription",
   strL "important", strL "warning"]

/-- Python `needle in hay` on strings: contiguous-substring containment. -/
def listContainsSub (needle : List Char) : List Char → Bool
  | [] => needle.isEmpty
  | c :: cs => needle.isPrefixOf (c :: cs) || listContainsSub needle cs

/-- The keyword test of `_fallback_key_points`: some medical keyword is
an infix of the lowercased sentence. -/
def hasMedicalKeyword (sentence : List Char) : Bool :=
  fbMedicalKeywords.any (fun kw => listContainsSub kw (pyLower sentence))

/-- First loop of `_fallback_key_points` over `sentences[:10]`: keep a
stripped sentence containing a medical keyword with length strictly
between 10 and 200, stopping after `fuel` kept sentences (the `break` at
three). -/
def fbKpKeywordScan : Nat → List (List Char) → List (List Char)
  | _, [] => []
  | 0, _ => []
  | fuel + 1, s :: rest =>
    let s2 := pyStrip s
    if hasMedicalKeyword s2 && (decide (10 < s2.length) && decide (s2.length < 200)) then
      s2 :: fbKpKeywordScan fuel rest
    else fbKpKeywordScan (fuel + 1) rest

/-- Second loop of `_fallback_key_points` over `sentences[:5]`: keep a
stripped sentence longer than 20 characters, stopping after `fuel` kept
sentences. -/
def fbKpLongScan : Nat → List (List Char) → List (List Char)
  | _, [] => []
  | 0, _ => []
  | fuel + 1, s :: rest =>
    let s2 := pyStrip s
    if decide (20 < s2.length) then s2 :: fbKpLongScan fuel rest
    else fbKpLongScan (fuel + 1) rest

/-- Embedding of TextSummarizationService._fallback_key_points. -/
def fallback_key_points (text : List Char) : List (List Char) :=
  if text = [] then []
  else
    let sentences := pySplit '.' text
    let key_points := fbKpKeywordScan 3 (sentences.take 10)
    if key_points = [] then fbKpLongScan 3 (sentences.take 5)
    else key_points

/-- Embedding of TextSummarizationService._generate_summary; the second component
counts `generate_content` invocations. -/
def generate_summary (model : Option GeminiModel)
    (text target_language summary_length : List Char) : List Char × Nat :=
  match model with
  | none => (fallback_summary text, 0)
  | some gen =>
    match gen (summary_prompt text target_language summary_length) with
    | none => (fallback_summary text, 1)
    | some t => if t = [] then (fallback_summary text, 1) else (pyStrip t, 1)

/-- Embedding of TextSummarizationService._extract_key_points; the second component
counts `generate_content` invocations. -/
def extract_key_points (model : Option GeminiModel)
    (text target_language : List Char) : List (List Char) × Nat :=
  match model with
  | none => (fallback_key_points text, 0)
  | some gen =>
    match gen (key_points_prompt text target_language) with
    | none => (fallback_key_points text, 1)
    | some t => if t = [] then (fallback_key_points text, 1) else (parseKeyPoints t, 1)

/-- Result dictionary of `analyze_and_summarize`; fields absent from a
branch dictionary are `none`. -/
structure AnalysisResult where
  success : Bool
  error : Option (List Char)
  summary : List Char
  key_points : List (List Char)
  word_count : Nat
  char_count : Option Nat
  summary_length : Option (List Char)
  target_language : Option (List Char)
deriving DecidableEq

/-- Embedding of TextSummarizationService.analyze_and_summarize; the second
component counts provider (`generate_content`) invocations performed
during the call. -/
def analyze_and_summarize (model : Option GeminiModel)
    (text target_language summary_length : List Char) : AnalysisResult × Nat :=
  if text = [] || (pyStrip text).length < 10 then
    (⟨false, some (strL "Text too short for analysis"), [], [], 0, none, none, none⟩, 0)
  else
    let word_count := (pySplitWs text).length
    let char_count := text.length
    let (summary, n1) := generate_summary model text target_language summary_length
    let (key_points, n2) := extract_key_points model text target_language
    (⟨true, none, summary, key_points, word_count, some char_count,
      some summary_length, some target_language⟩, n1 + n2)

/-!
## Specification-side definitions and concrete inputs used by the claims
-/

/-- Number of non-whitespace characters of a string (the metric used by
the retry rule of the spec for PDF extraction). -/
def nonWsCount (l : List Char) : Nat :=
  (l.filter (fun c => !isPySpace c)).length

/-- The success dictionary of `extract_text_from_pdf` built from an
extracted text `t`. -/
def extractionSuccess (det : Detector) (t : List Char) : ExtractionResult :=
  ⟨true, none, clean_text t, some (detect_language det t),
    some (pySplitWs (clean_text t)).length, some (clean_text t).length⟩

/-- The failure dictionary of `extract_text_from_pdf` when both extraction
methods yield too little text. -/
def extractionFailure : ExtractionResult :=
  ⟨false, some (strL "Could not extract text from PDF"), [], none, none, none⟩

/-- Specification-side reformulation of `_fallback_key_points` (used to
state the amended claim C6): up to three of the first ten stripped
sentences that contain a medical keyword and whose length lies strictly
between 10 and 200; if none qualifies, up to three of the first five
stripped sentences longer than 20 characters. -/
def fallback_key_points_spec (text : List Char) : List (List Char) :=
  if text = [] then []
  else
    let sentences := pySplit '.' text
    let primary :=
      (((sentences.take 10).map pyStrip).filter
        (fun s => hasMedicalKeyword s &&
          (decide (10 < s.length) && decide (s.length < 200)))).take 3
    if primary.isEmpty then
      (((sentences.take 5).map pyStrip).filter
        (fun s => decide (20 < s.length))).take 3
    else primary

/-- Specification-side line rule for key points (used to state the
amended claim C7): a stripped line is kept exactly when its first
character is `•`, `-` or `*`; the markers are then stripped from the
left, the remainder is stripped, and an empty remainder is dropped. -/
def keptKeyPoint (line : List Char) : Option (List Char) :=
  let l := pyStrip line
  match l.head? with
  | none => none
  | some c =>
    if c = '•' || c = '-' || c = '*' then
      let cleaned := pyStrip (l.dropWhile (fun d => d = '•' || d = '-' || d = '*'))
      if cleaned.isEmpty then none else some cleaned
    else none

/-- Specification-side line rule for action items (used to state the
amended claim C7): a stripped line is kept exactly when its first
character is a digit, `-` or `•`; digits, `.`, `-` and `•` are then
stripped from the left, the remainder is stripped, and an empty remainder
is dropped. -/
def keptSolution (line : List Char) : Option (List Char) :=
  let l := pyStrip line
  match l.head? with
  | none => none
  | some c =>
    if c.isDigit || c = '-' || c = '•' then
      let cleaned :=
        pyStrip (l.dropWhile (fun d => decide (d ∈ strL "0123456789.-•")))
      if cleaned.isEmpty then none else some cleaned
    else none

/-- Counterexample input for C4, lower bound: ten characters, nine of
them leading spaces. -/
def c4mLow : List Char := List.replicate 9 ' ' ++ [ 'a' ]

/-- Counterexample input for C4, upper bound: 5001 characters, the last
4991 of them trailing spaces. -/
def c4mHigh : List Char := List.replicate 10 'a' ++ List.replicate 4991 ' '

/-- Counterexample input for C6: the first sentence contains the keyword
"dose" but is too short to pass the length filter of the code; the second
contains no keyword. -/
def c6text : List Char :=
  strL "dose. here is a sentence well over twenty characters long."

/-- Counterexample input for C10: removing the embedded `javascript:`
occurrence splices the surrounding characters into a fresh occurrence. -/
def c10text : List Char := strL "javajavascript:script:"

/-- Counterexample file for C3: the layout-aware extractor returns
"a b c d e f" (eleven characters once trimmed, only six of them
non-whitespace), the sequential extractor returns nothing. -/
def c3file : PdfFile :=
  ⟨none, none, Except.ok [Except.ok (strL "a b c d e f")], Except.ok []⟩

/-- Witness file for C3: both extractors return a single short page. -/
def c3fileShort : PdfFile :=
  ⟨none, none, Except.ok [Except.ok (strL "a")], Except.ok [Except.ok (strL "b")]⟩

/-- Witness file for C9: the first `file.seek(0)` raises. -/
def c9file : PdfFile :=
  ⟨some (strL "seek failed"), none, Except.ok [], Except.ok []⟩

/-- A detector that always raises, used for concrete evaluations. -/
def detNone : Detector := fun _ => none

/-!
## Helper lemmas
-/

theorem dropWhile_head_not {α} (p : α → Bool) :
    ∀ (l : List α) (c : α), (l.dropWhile p).head? = some c → p c = false := by
  intro l
  induction l with
  | nil => intro c h; simp [List.dropWhile] at h
  | cons a l ih =>
    intro c h
    by_cases hp : p a
    · rw [List.dropWhile_cons, if_pos hp] at h
      exact ih c h
    · rw [List.dropWhile_cons, if_neg hp] at h
      simp at h
      subst h
      exact Bool.of_not_eq_true hp

theorem dropWhile_of_head_not {α} (p : α → Bool) (l : List α)
    (h : ∀ c, l.head? = some c → p c = false) : l.dropWhile p = l := by
  cases l with
  | nil => rfl
  | cons a l =>
    rw [List.dropWhile_cons, if_neg]
    simp [h a rfl]

theorem dropWhile_idem {α} (p : α → Bool) (l : List α) :
    (l.dropWhile p).dropWhile p = l.dropWhile p :=
  dropWhile_of_head_not p _ (dropWhile_head_not p l)

theorem dropWhile_is_suffix {α} (p : α → Bool) :
    ∀ l : List α, ∃ t, t ++ l.dropWhile p = l := by
  intro l
  induction l with
  | nil => exact ⟨[], rfl⟩
  | cons a l ih =>
    by_cases hp : p a
    · obtain ⟨t, ht⟩ := ih
      exact ⟨a :: t, by rw [List.dropWhile_cons, if_pos hp, List.cons_append, ht]⟩
    · exact ⟨[], by rw [List.dropWhile_cons, if_neg hp, List.nil_append]⟩

theorem pyStrip_nil : pyStrip [] = [] := rfl

theorem pyStrip_head_not (l : List Char) (c : Char)
    (h : (pyStrip l).head? = some c) : isPySpace c = false := by
  obtain ⟨t, ht⟩ :=
    dropWhile_is_suffix isPySpace (l.dropWhile isPySpace).reverse
  have key : pyStrip l ++ t.reverse = l.dropWhile isPySpace := by
    have h2 := congrArg List.reverse ht
    rw [List.reverse_append, List.reverse_reverse] at h2
    exact h2
  cases hsl : pyStrip l with
  | nil => rw [hsl] at h; cases h
  | cons x xs =>
    rw [hsl] at h
    simp at h
    subst h
    have hx : (l.dropWhile isPySpace).head? = some x := by
      rw [← key, hsl]; rfl
    exact dropWhile_head_not isPySpace l x hx

theorem pyStrip_dropWhile (l : List Char) :
    (pyStrip l).dropWhile isPySpace = pyStrip l :=
  dropWhile_of_head_not _ _ (pyStrip_head_not l)

theorem pyStrip_rev_dropWhile (l : List Char) :
    (pyStrip l).reverse.dropWhile isPySpace = (pyStrip l).reverse := by
  have h : (pyStrip l).reverse
      = (l.dropWhile isPySpace).reverse.dropWhile isPySpace := by
    show (((l.dropWhile isPySpace).reverse.dropWhile isPySpace).reverse).reverse = _
    rw [List.reverse_reverse]
  rw [h]
  exact dropWhile_idem _ _

theorem pyStrip_idem (l : List Char) : pyStrip (pyStrip l) = pyStrip l := by
  show (((pyStrip l).dropWhile isPySpace).reverse.dropWhile isPySpace).reverse
    = pyStrip l
  rw [pyStrip_dropWhile, pyStrip_rev_dropWhile, List.reverse_reverse]

theorem reSubAllAux_id (matchAt : List Char → Option (List Char))
    (repl : List Char) :
    ∀ (n : Nat) (l : List Char), reSearch matchAt l = false →
      reSubAllAux matchAt repl n l = l := by
  intro n
  induction n with
  | zero => intro l _; cases l <;> rfl
  | succ n ih =>
    intro l h
    cases l with
    | nil => rfl
    | cons c cs =>
      rw [reSearch] at h
      simp at h
      simp only [reSubAllAux, h.1, ih cs h.2]

theorem reSubAll_id (matchAt : List Char → Option (List Char))
    (repl : List Char) (l : List Char) (h : reSearch matchAt l = false) :
    reSubAll matchAt repl l = l :=
  reSubAllAux_id matchAt repl l.length l h

theorem noNl_reSearch_match3Nl :
    ∀ l : List Char, '\n' ∉ l → reSearch match3NlAt l = false := by
  intro l
  induction l with
  | nil => intro _; rfl
  | cons c cs ih =>
    intro h
    rw [reSearch]
    have hc : c ≠ '\n' := fun hc => h (hc ▸ List.mem_cons_self c cs)
    have : match3NlAt (c :: cs) = none := by
      rw [match3NlAt]; simp [hc]
    rw [this]
    simp
    exact Bool.of_not_eq_true
      (by simpa using ih (fun hm => h (List.mem_cons_of_mem c hm)))

/-- Normal form produced by `collapseWs`: every whitespace character is a
plain space and no two adjacent characters are both whitespace. -/
def wsNormal (l : List Char) : Prop :=
  (∀ c ∈ l, isPySpace c = true → c = ' ') ∧
    List.Chain' (fun a b => ¬(isPySpace a = true ∧ isPySpace b = true)) l

theorem collapseWsAux_wsNormal :
    ∀ l : List Char, wsNormal (collapseWsAux false l) ∧
      wsNormal (collapseWsAux true l) ∧
      (∀ c, (collapseWsAux true l).head? = some c → isPySpace c = false) := by
  intro l
  induction l with
  | nil =>
    refine ⟨⟨fun c hc _ => absurd hc (List.not_mem_nil c), List.chain'_nil⟩,
      ⟨fun c hc _ => absurd hc (List.not_mem_nil c), List.chain'_nil⟩, ?_⟩
    intro c h; cases h
  | cons c rest ih =>
    obtain ⟨ihF, ihT, ihH⟩ := ih
    by_cases hc : isPySpace c = true
    · have eqF : collapseWsAux false (c :: rest) = ' ' :: collapseWsAux true rest := by
        rw [collapseWsAux]; simp [hc]
      have eqT : collapseWsAux true (c :: rest) = collapseWsAux true rest := by
        rw [collapseWsAux]; simp [hc]
      refine ⟨?_, by rw [eqT]; exact ihT, by rw [eqT]; exact ihH⟩
      rw [eqF]
      constructor
      · intro d hd _
        rcases List.mem_cons.mp hd with h | h
        · exact h
        · exact ihT.1 d h (by assumption)
      · rw [List.chain'_cons']
        refine ⟨?_, ihT.2⟩
        intro y hy
        intro ⟨_, hy2⟩
        rw [ihH y hy] at hy2
        cases hy2
    · have eqF : collapseWsAux false (c :: rest) = c :: collapseWsAux false rest := by
        rw [collapseWsAux, if_neg hc]
      have eqT : collapseWsAux true (c :: rest) = c :: collapseWsAux false rest := by
        rw [collapseWsAux, if_neg hc]
      have hno : wsNormal (c :: collapseWsAux false rest) := by
        constructor
        · intro d hd hds
          rcases List.mem_cons.mp hd with h | h
          · exact absurd (h ▸ hds) hc
          · exact ihF.1 d h hds
        · rw [List.chain'_cons']
          refine ⟨?_, ihF.2⟩
          intro y _
          intro ⟨hc1, _⟩
          exact hc hc1
      refine ⟨by rw [eqF]; exact hno, by rw [eqT]; exact hno, ?_⟩
      intro d hd
      rw [eqT] at hd
      simp at hd
      rw [← hd]
      exact Bool.of_not_eq_true hc

theorem collapseWs_wsNormal (l : List Char) : wsNormal (collapseWs l) :=
  (collapseWsAux_wsNormal l).1

theorem collapseWsAux_fix :
    ∀ l : List Char, wsNormal l →
      collapseWsAux false l = l ∧
      ((∀ c, l.head? = some c → isPySpace c = false) → collapseWsAux true l = l) := by
  intro l
  induction l with
  | nil => intro _; exact ⟨rfl, fun _ => rfl⟩
  | cons c rest ih =>
    intro hn
    have hmem : ∀ d ∈ rest, isPySpace d = true → d = ' ' :=
      fun d hd => hn.1 d (List.mem_cons_of_mem c hd)
    have hchain := List.chain'_cons'.mp hn.2
    have hnrest : wsNormal rest := ⟨hmem, hchain.2⟩
    obtain ⟨ihF, ihT⟩ := ih hnrest
    by_cases hc : isPySpace c = true
    · have hsp : c = ' ' := hn.1 c (List.mem_cons_self c rest) hc
      have hheadrest : ∀ d, rest.head? = some d → isPySpace d = false := by
        intro d hd
        have := hchain.1 d hd
        by_cases hds : isPySpace d = true
        · exact absurd ⟨hc, hds⟩ this
        · exact Bool.of_not_eq_true hds
      constructor
      · rw [collapseWsAux, if_pos hc, ihT hheadrest, hsp]
        rfl
      · intro hhead
        have := hhead c rfl
        rw [hc] at this
        cases this
    · constructor
      · rw [collapseWsAux, if_neg hc, ihF]
      · intro _
        rw [collapseWsAux, if_neg hc, ihF]

theorem wsNormal_dropWhile (p : Char → Bool) :
    ∀ l : List Char, wsNormal l → wsNormal (l.dropWhile p) := by
  intro l
  induction l with
  | nil => intro h; exact h
  | cons c rest ih =>
    intro hn
    have hchain := List.chain'_cons'.mp hn.2
    have hnrest : wsNormal rest :=
      ⟨fun d hd => hn.1 d (List.mem_cons_of_mem c hd), hchain.2⟩
    by_cases hp : p c
    · rw [List.dropWhile_cons, if_pos hp]
      exact ih hnrest
    · rw [List.dropWhile_cons, if_neg hp]
      exact hn

theorem wsNormal_reverse (l : List Char) (h : wsNormal l) :
    wsNormal l.reverse := by
  constructor
  · intro c hc
    exact h.1 c (List.mem_reverse.mp hc)
  · rw [List.chain'_reverse]
    exact h.2.imp (fun a b hab => fun hba => hab ⟨hba.2, hba.1⟩)

theorem wsNormal_pyStrip (l : List Char) (h : wsNormal l) :
    wsNormal (pyStrip l) :=
  wsNormal_reverse _ (wsNormal_dropWhile _ _
    (wsNormal_reverse _ (wsNormal_dropWhile _ _ h)))

theorem collapseWs_fix_of_wsNormal (l : List Char) (h : wsNormal l) :
    collapseWs l = l :=
  (collapseWsAux_fix l h).1

theorem collapseWs_no_nl (l : List Char) : '\n' ∉ collapseWs l := by
  intro h
  have := (collapseWs_wsNormal l).1 '\n' h (by decide)
  cases this

theorem mem_pyStrip {c : Char} {l : List Char} (h : c ∈ pyStrip l) : c ∈ l := by
  obtain ⟨t1, ht1⟩ := dropWhile_is_suffix isPySpace l
  obtain ⟨t2, ht2⟩ :=
    dropWhile_is_suffix isPySpace (l.dropWhile isPySpace).reverse
  have hB : c ∈ (l.dropWhile isPySpace).reverse.dropWhile isPySpace :=
    List.mem_reverse.mp h
  have hA : c ∈ (l.dropWhile isPySpace).reverse := by
    rw [← ht2]; exact List.mem_append_right t2 hB
  have hA2 : c ∈ l.dropWhile isPySpace := List.mem_reverse.mp hA
  rw [← ht1]
  exact List.mem_append_right t1 hA2

theorem cleanAllowSub_allowed (l : List Char) :
    ∀ c ∈ cleanAllowSub l, isCleanAllowed c = true := by
  intro c hc
  obtain ⟨a, _, ha2⟩ := List.mem_map.mp hc
  by_cases hall : isCleanAllowed a = true
  · rw [if_pos hall] at ha2; rw [← ha2]; exact hall
  · rw [if_neg hall] at ha2; rw [← ha2]; decide

theorem cleanAllowSub_no_nl (l : List Char) (h : '\n' ∉ l) :
    '\n' ∉ cleanAllowSub l := by
  intro hc
  obtain ⟨a, ha1, ha2⟩ := List.mem_map.mp hc
  by_cases hall : isCleanAllowed a = true
  · rw [if_pos hall] at ha2; exact h (ha2 ▸ ha1)
  · rw [if_neg hall] at ha2; cases ha2

theorem fbKpKeywordScan_eq :
    ∀ (l : List (List Char)) (k : Nat),
      fbKpKeywordScan k l =
        ((l.map pyStrip).filter
          (fun s => hasMedicalKeyword s &&
            (decide (10 < s.length) && decide (s.length < 200)))).take k := by
  intro l
  induction l with
  | nil => intro k; cases k <;> rfl
  | cons s rest ih =>
    intro k
    cases k with
    | zero => rfl
    | succ k =>
      by_cases hp : (hasMedicalKeyword (pyStrip s) &&
          (decide (10 < (pyStrip s).length) &&
            decide ((pyStrip s).length < 200))) = true
      · simp only [fbKpKeywordScan, List.map_cons, List.filter_cons, hp,
          if_pos hp, List.take_succ_cons]
        rw [ih k]
        simp
      · simp only [fbKpKeywordScan, List.map_cons, List.filter_cons, hp,
          if_neg hp]
        rw [ih (k + 1)]
        simp [Bool.of_not_eq_true hp]

theorem fbKpLongScan_eq :
    ∀ (l : List (List Char)) (k : Nat),
      fbKpLongScan k l =
        ((l.map pyStrip).filter (fun s => decide (20 < s.length))).take k := by
  intro l
  induction l with
  | nil => intro k; cases k <;> rfl
  | cons s rest ih =>
    intro k
    cases k with
    | zero => rfl
    | succ k =>
      by_cases hp : (decide (20 < (pyStrip s).length)) = true
      · simp only [fbKpLongScan, List.map_cons, List.filter_cons, hp,
          if_pos hp, List.take_succ_cons]
        rw [ih k]
        simp
      · simp only [fbKpLongScan, List.map_cons, List.filter_cons, hp,
          if_neg hp]
        rw [ih (k + 1)]
        simp [Bool.of_not_eq_true hp]

theorem parseKeyPointsLoop_eq (lines : List (List Char)) :
    parseKeyPointsLoop lines = lines.filterMap parseKeyPointLine := by
  induction lines with
  | nil => rfl
  | cons line rest ih =>
    rw [parseKeyPointsLoop.eq_def, List.filterMap_cons]
    cases h : parseKeyPointLine line <;> simp [h, ih]

theorem parseSolutionsLoop_eq (lines : List (List Char)) :
    parseSolutionsLoop lines = lines.filterMap parseSolutionLine := by
  induction lines with
  | nil => rfl
  | cons line rest ih =>
    rw [parseSolutionsLoop.eq_def, List.filterMap_cons]
    cases h : parseSolutionLine line <;> simp [h, ih]

theorem context_templates_eq_none (c : List Char)
    (h : c ∉ contextCatalogIds) : context_templates c = none := by
  simp [contextCatalogIds] at h
  obtain ⟨h1, h2, h3, h4, h5⟩ := h
  simp [context_templates, h1, h2, h3, h4, h5]

theorem sea_context_templates_eq_none (c : List Char)
    (h : c ∉ contextCatalogIds) : sea_context_templates c = none := by
  simp [contextCatalogIds] at h
  obtain ⟨h1, h2, h3, h4, h5⟩ := h
  simp [sea_context_templates, h1, h2, h3, h4, h5]

theorem cultural_fallback_english (m c : List Char)
    (h : c ∉ contextCatalogIds) :
    cultural_fallback_adaptation m c =
      strL "Important health advice: " ++ m
        ++ strL "\n\nPlease consult with your doctor." := by
  simp [contextCatalogIds] at h
  obtain ⟨h1, h2, h3, h4, h5⟩ := h
  simp [cultural_fallback_adaptation, h1, h2, h3, h4, h5]

theorem sealion_fallback_english (m c : List Char)
    (h : c ∉ contextCatalogIds) :
    sealion_fallback_adaptation m c =
      strL "Important health advice: " ++ m
        ++ strL "\n\nPlease consult with your doctor for more information." := by
  simp [contextCatalogIds] at h
  obtain ⟨h1, h2, h3, h4, h5⟩ := h
  simp [sealion_fallback_adaptation, h1, h2, h3, h4, h5]

theorem bulletSetEq (d : Char) :
    ((strL "•-*").contains d) =
      (decide (d = '•') || decide (d = '-') || decide (d = '*')) := by
  show (['•', '-', '*'] : List Char).contains d = _
  simp [List.mem_cons]
  rw [Bool.or_assoc]

theorem parseKeyPointLine_eq (line : List Char) :
    parseKeyPointLine line = keptKeyPoint line := by
  rw [parseKeyPointLine, keptKeyPoint]
  cases h : pyStrip line with
  | nil => rfl
  | cons c cs =>
    have hfun : (fun c => (strL "•-*").contains c)
        = (fun d => decide (d = '•') || decide (d = '-') || decide (d = '*')) :=
      funext bulletSetEq
    simp only [pyLstripSet, hfun, List.isEmpty_iff, List.head?_cons]

theorem parseSolutionLine_eq (line : List Char) :
    parseSolutionLine line = keptSolution line := by
  rw [parseSolutionLine, keptSolution]
  cases h : pyStrip line with
  | nil => rfl
  | cons c cs =>
    have hfun : (fun c => (strL "0123456789.-•").contains c)
        = (fun d => decide (d ∈ strL "0123456789.-•")) := by
      funext d
      simp [List.contains]
    simp only [pyLstripSet, hfun, List.isEmpty_iff, List.head?_cons]

theorem pyStrip_c4mHigh : pyStrip c4mHigh = List.replicate 10 'a' := by
  rw [c4mHigh, pyStrip]
  have h1 : List.dropWhile isPySpace
      (List.replicate 10 'a' ++ List.replicate 4991 ' ')
        = List.replicate 10 'a' ++ List.replicate 4991 ' ' := by
    apply dropWhile_of_head_not
    intro c hc
    rw [show (10 : Nat) = 9 + 1 from rfl, List.replicate_succ,
      List.cons_append, List.head?_cons] at hc
    cases hc
    decide
  have h2 : ∀ n : Nat, List.dropWhile isPySpace
      (List.replicate n ' ' ++ List.replicate 10 'a')
        = List.replicate 10 'a' := by
    intro n
    induction n with
    | zero =>
      rw [List.replicate, List.nil_append]
      apply dropWhile_of_head_not
      intro c hc
      rw [show (10 : Nat) = 9 + 1 from rfl, List.replicate_succ,
        List.head?_cons] at hc
      cases hc
      decide
    | succ n ih =>
      rw [List.replicate_succ, List.cons_append, List.dropWhile_cons,
        if_pos (by decide)]
      exact ih
  rw [h1, List.reverse_append, List.reverse_replicate, List.reverse_replicate,
    h2, List.reverse_replicate]

theorem c4mHigh_valid : (validate_message (some c4mHigh)).valid = true := by
  rw [validate_message]
  rw [if_neg (by decide : ¬ c4mHigh = [])]
  simp only [pyStrip_c4mHigh]
  decide

/-!
## The claims
-/

/-- Claim C1: for every message `m`, when both AI providers are
unavailable (SEA-Lion availability flag `false`, Gemini model
uninitialized), the adaptation operation for context "thai-low-literacy"
returns exactly the hard-coded Thai fallback template with `m`
substituted into it; the computation is a pure function of its
arguments, so the result is byte-identical on every call. -/
theorem claim_C1_thai_fallback (m : List Char) (api : SeaLionApi) :
    app_adapted_message false api none m (strL "thai-low-literacy") =
      strL "คำแนะนำสำคัญเกี่ยวกับสุขภาพ: " ++ m ++ strL "\n\nโปรดปรึกษาแพทย์" := rfl

/-- Claim C2: for every message `m` and context id `c` outside the fixed
context catalog, both adaptation services return normally with their
generic English fallback wrapping `m`, and a well-formed adaptation
request with such a context id is still answered with HTTP 200. -/
theorem claim_C2_unknown_context (m c : List Char)
    (hc : c ∉ contextCatalogIds) :
    (∀ model : Option GeminiModel,
      generate_adaptation model m c =
        strL "Important health advice: " ++ m
          ++ strL "\n\nPlease consult with your doctor.") ∧
    (∀ (avail : Bool) (api : SeaLionApi),
      generate_cultural_adaptation avail api m c =
        strL "Important health advice: " ++ m
          ++ strL "\n\nPlease consult with your doctor for more information.") ∧
    (∀ (sa : Bool) (api : SeaLionApi) (gm : Option GeminiModel),
      pyStrip m ≠ [] → (validate_message (some (pyStrip m))).valid = true →
      pyStrip c = c → c ≠ [] →
      generate_adaptation_route sa api gm (some ⟨some m, some c⟩) =
        ⟨200, true,
          some (if sa then
            strL "Important health advice: " ++ pyStrip m
              ++ strL "\n\nPlease consult with your doctor for more information."
          else
            strL "Important health advice: " ++ pyStrip m
              ++ strL "\n\nPlease consult with your doctor."), none⟩) := by
  have hg : ∀ (m' : List Char) (model : Option GeminiModel),
      generate_adaptation model m' c =
        strL "Important health advice: " ++ m'
          ++ strL "\n\nPlease consult with your doctor." := by
    intro m' model
    cases model with
    | none => exact cultural_fallback_english m' c hc
    | some gen =>
      rw [generate_adaptation, context_templates_eq_none c hc]
      exact cultural_fallback_english m' c hc
  have hs : ∀ (m' : List Char) (avail : Bool) (api : SeaLionApi),
      generate_cultural_adaptation avail api m' c =
        strL "Important health advice: " ++ m'
          ++ strL "\n\nPlease consult with your doctor for more information." := by
    intro m' avail api
    cases avail with
    | false => exact sealion_fallback_english m' c hc
    | true =>
      rw [generate_cultural_adaptation, sea_context_templates_eq_none c hc]
      exact sealion_fallback_english m' c hc
  refine ⟨hg m, hs m, ?_⟩
  intro sa api gm hm hv hcs hcne
  rw [generate_adaptation_route]
  simp only [Option.getD_some, hcs]
  rw [if_neg hm, if_neg hcne]
  simp only [hv, Bool.not_true, Bool.false_eq_true, if_false]
  cases sa with
  | false => simp [app_adapted_message, hg (pyStrip m) gm]
  | true => simp [app_adapted_message, hs (pyStrip m) true api]

/-- Witness for claim C2 at a concrete unknown context id. -/
theorem claim_C2_witness :
    generate_adaptation none (strL "Please take your medication")
        (strL "klingon-space") =
      strL "Important health advice: Please take your medication\n\nPlease consult with your doctor." ∧
    (generate_adaptation_route false (fun _ _ _ => none) none
      (some ⟨some (strL "Please take your medication"),
        some (strL "klingon-space")⟩)).status = 200 := by
  have h := claim_C2_unknown_context (strL "Please take your medication")
    (strL "klingon-space") (by decide)
  constructor
  · rw [h.1 none]; decide
  · rw [h.2.2 false (fun _ _ _ => none) none (by decide) (by decide)
      (by decide) (by decide)]

/-- Claim C5: for input text whose trimmed form is shorter than 10
characters (including the empty string), `analyze_and_summarize` returns
`success = false` with empty summary and empty key-point list, and
performs no provider invocation (the call counter stays 0) — even when a
live model is configured. -/
theorem claim_C5_short_text (model : Option GeminiModel)
    (text target_language summary_length : List Char)
    (h : (pyStrip text).length < 10) :
    analyze_and_summarize model text target_language summary_length =
      (⟨false, some (strL "Text too short for analysis"), [], [], 0,
        none, none, none⟩, 0) := by
  rw [analyze_and_summarize]
  have hcond : (decide (text = []) ||
      decide ((pyStrip text).length < 10)) = true := by simp [h]
  rw [if_pos hcond]

/-- Witness for claim C5: a two-character text with a configured model. -/
theorem claim_C5_witness :
    analyze_and_summarize (some (fun _ => some (strL "a model answer")))
        (strL "hi") (strL "en") (strL "medium") =
      (⟨false, some (strL "Text too short for analysis"), [], [], 0,
        none, none, none⟩, 0) :=
  claim_C5_short_text _ _ _ _ (by decide)

/-- Counterexample to claim C6 as stated: `c6text` has a sentence
containing the medical keyword "dose", yet the fallback key-point
extraction returns a single sentence that contains no keyword (the
keyword sentence is silently discarded by a length filter the claim does
not mention). -/
theorem claim_C6_counterexample :
    fallback_key_points c6text =
      [strL "here is a sentence well over twenty characters long"] ∧
    hasMedicalKeyword (strL "dose") = true ∧
    listContainsSub (strL "dose") (pyLower c6text) = true ∧
    hasMedicalKeyword
      (strL "here is a sentence well over twenty characters long") = false := by
  refine ⟨by decide, by decide, by decide, by decide⟩

/-- Amended claim C6: the fallback key-point extraction returns up to
three of the *first ten* stripped sentences that contain a medical
keyword *and have length strictly between 10 and 200*; when that filter
keeps nothing, it returns up to three of the *first five* stripped
sentences longer than 20 characters. -/
theorem claim_C6_amended (text : List Char) :
    fallback_key_points text = fallback_key_points_spec text := by
  rw [fallback_key_points, fallback_key_points_spec]
  by_cases h : text = []
  · simp [h]
  · simp only [if_neg h]
    rw [fbKpKeywordScan_eq, fbKpLongScan_eq]
    simp [List.isEmpty_iff]

/-- Counterexample to claim C7 as stated: a provider line starting with a
leading digit is *dropped* by the key-point parser (which accepts only
`•`, `-`, `*`), and a line starting with `*` is *dropped* by the
action-item parser (which accepts only digits, `-`, `•`). -/
theorem claim_C7_counterexample :
    (pyStrip (strL "1. take your medication daily")).head? = some '1' ∧
    '1'.isDigit = true ∧
    parseKeyPoints (strL "1. take your medication daily") = [] ∧
    (pyStrip (strL "* drink plenty of water")).head? = some '*' ∧
    parseSolutions (strL "* drink plenty of water") = [] := by
  refine ⟨by decide, by decide, by decide, by decide, by decide⟩

/-- Amended claim C7: the key-point parser keeps a stripped line exactly
when its first character is `•`, `-` or `*` (a leading digit is *not*
accepted), strips the markers and surrounding whitespace, drops empty
results and caps the list at 5; the action-item parser keeps a stripped
line exactly when its first character is a digit, `-` or `•` (`*` is
*not* accepted), strips digits, `.`, `-`, `•` and whitespace, drops
empty results and caps the list at 7. -/
theorem claim_C7_amended (responseText : List Char) :
    parseKeyPoints responseText =
      ((pySplit '\n' (pyStrip responseText)).filterMap keptKeyPoint).take 5 ∧
    parseSolutions responseText =
      ((pySplit '\n' (pyStrip responseText)).filterMap keptSolution).take 7 := by
  constructor
  · rw [parseKeyPoints, parseKeyPointsLoop_eq, funext parseKeyPointLine_eq]
  · rw [parseSolutions, parseSolutionsLoop_eq, funext parseSolutionLine_eq]

/-- Counterexample to claim C8 as stated: the character allow-list
substitution runs *after* whitespace collapsing, so replacing adjacent
disallowed characters creates a run of two spaces in the cleaned
output. -/
theorem claim_C8_counterexample :
    clean_text (strL "a@@b") = strL "a  b" ∧
    listContainsSub (strL "  ") (clean_text (strL "a@@b")) = true := by
  refine ⟨by decide, by decide⟩

/-- Amended claim C8: every character of the cleaned output is in the
allow-list, the output has no leading or trailing whitespace (it is a
fixed point of stripping), and it contains no newline at all (the
whitespace collapse removes every newline before the line-break rule
could apply) — but runs of multiple spaces can remain where disallowed
characters were replaced. -/
theorem claim_C8_amended (text : List Char) :
    (∀ c ∈ clean_text text, isCleanAllowed c = true) ∧
    pyStrip (clean_text text) = clean_text text ∧
    '\n' ∉ clean_text text := by
  rw [clean_text]
  by_cases h : text = []
  · simp [h, pyStrip]
  · simp only [if_neg h]
    have hnl1 : '\n' ∉ collapseWs text := collapseWs_no_nl text
    have ht2 : reSubAll match3NlAt (strL "\n\n") (collapseWs text)
        = collapseWs text :=
      reSubAll_id _ _ _ (noNl_reSearch_match3Nl _ hnl1)
    rw [ht2]
    refine ⟨?_, pyStrip_idem _, ?_⟩
    · intro c hc
      exact cleanAllowSub_allowed _ c (mem_pyStrip hc)
    · intro hcmem
      exact cleanAllowSub_no_nl _ hnl1 (mem_pyStrip hcmem)

/-- Counterexample to claim C3 as stated: on `c3file` both extraction
methods yield fewer than 10 *non-whitespace* characters, yet
`extract_text_from_pdf` succeeds instead of retrying and failing — the
code compares the *trimmed length* (internal whitespace included), not
the non-whitespace count. -/
theorem claim_C3_counterexample :
    nonWsCount (extract_with_pdfplumber c3file.plumberDoc) < 10 ∧
    nonWsCount (extract_with_pypdf2 c3file.pypdfDoc) < 10 ∧
    (extract_text_from_pdf c3file detNone).success = true ∧
    extract_text_from_pdf c3file detNone ≠ extractionFailure := by
  refine ⟨by decide, by decide, by decide, by decide⟩

/-- Amended claim C3: `extract_text_from_pdf` tries pdfplumber first; if
that text has fewer than 10 characters *after trimming*, it retries from
the start of the file with PyPDF2; if both trimmed texts stay under 10
characters it returns the failure result with error exactly
"Could not extract text from PDF" and empty text. -/
theorem claim_C3_amended (f : PdfFile) (det : Detector)
    (h1 : f.seekErr1 = none) (h2 : f.seekErr2 = none) :
    ((pyStrip (extract_with_pdfplumber f.plumberDoc)).length < 10 →
      (pyStrip (extract_with_pypdf2 f.pypdfDoc)).length < 10 →
      extract_text_from_pdf f det = extractionFailure) ∧
    (10 ≤ (pyStrip (extract_with_pdfplumber f.plumberDoc)).length →
      extract_text_from_pdf f det =
        extractionSuccess det (extract_with_pdfplumber f.plumberDoc)) ∧
    ((pyStrip (extract_with_pdfplumber f.plumberDoc)).length < 10 →
      10 ≤ (pyStrip (extract_with_pypdf2 f.pypdfDoc)).length →
      extract_text_from_pdf f det =
        extractionSuccess det (extract_with_pypdf2 f.pypdfDoc)) := by
  refine ⟨?_, ?_, ?_⟩
  · intro ha hb
    have hca : (decide (extract_with_pdfplumber f.plumberDoc = []) ||
        decide ((pyStrip (extract_with_pdfplumber f.plumberDoc)).length < 10))
          = true := by simp [ha]
    have hcb : (decide (extract_with_pypdf2 f.pypdfDoc = []) ||
        decide ((pyStrip (extract_with_pypdf2 f.pypdfDoc)).length < 10))
          = true := by simp [hb]
    rw [extract_text_from_pdf, extractBody, h1]
    simp only [hca, hcb, h2, if_true, extractionFailure]
  · intro ha
    have hne : extract_with_pdfplumber f.plumberDoc ≠ [] := by
      intro he
      rw [he] at ha
      simp [pyStrip] at ha
    have hca : (decide (extract_with_pdfplumber f.plumberDoc = []) ||
        decide ((pyStrip (extract_with_pdfplumber f.plumberDoc)).length < 10))
          = false := by
      simp [hne]
      omega
    rw [extract_text_from_pdf, extractBody, h1]
    simp only [hca, Bool.false_eq_true, if_false, extractionSuccess]
  · intro ha hb
    have hca : (decide (extract_with_pdfplumber f.plumberDoc = []) ||
        decide ((pyStrip (extract_with_pdfplumber f.plumberDoc)).length < 10))
          = true := by simp [ha]
    have hne : extract_with_pypdf2 f.pypdfDoc ≠ [] := by
      intro he
      rw [he] at hb
      simp [pyStrip] at hb
    have hcb : (decide (extract_with_pypdf2 f.pypdfDoc = []) ||
        decide ((pyStrip (extract_with_pypdf2 f.pypdfDoc)).length < 10))
          = false := by
      simp [hne]
      omega
    rw [extract_text_from_pdf, extractBody, h1]
    simp only [hca, hcb, h2, if_true, Bool.false_eq_true, if_false,
      extractionSuccess]

/-- Witness for the amended claim C3: a file on which both extraction
methods yield one character. -/
theorem claim_C3_witness :
    extract_text_from_pdf c3fileShort detNone = extractionFailure :=
  (claim_C3_amended c3fileShort detNone rfl rfl).1 (by decide) (by decide)

/-- Counterexample to claim C4 as stated: `c4mLow` has length 10 and no
forbidden pattern yet fails validation (its trimmed length is 1), and
`c4mHigh` has length 5001 yet passes validation (its trimmed length is
10) — the length bounds are checked on the *stripped* message. -/
theorem claim_C4_counterexample :
    c4mLow.length = 10 ∧ forbiddenHit c4mLow = false ∧
    (validate_message (some c4mLow)).valid = false ∧
    c4mHigh.length = 5001 ∧
    (validate_message (some c4mHigh)).valid = true := by
  refine ⟨by decide, by decide, by decide, ?_, c4mHigh_valid⟩
  rw [c4mHigh]
  simp only [List.length_append, List.length_replicate]

/-- Amended claim C4: for every non-empty message `m`, if the *stripped*
message has length in [10, 5000] and matches no forbidden pattern,
validation succeeds with the stripped message; a stripped length below
10 fails with the minimum-length message and a stripped length above
5000 fails with the maximum-length message. -/
theorem claim_C4_amended (m : List Char) (hne : m ≠ []) :
    (10 ≤ (pyStrip m).length → (pyStrip m).length ≤ 5000 →
      forbiddenHit (pyStrip m) = false →
      validate_message (some m) =
        ⟨true, strL "Message is valid", some (pyStrip m)⟩) ∧
    ((pyStrip m).length < 10 →
      validate_message (some m) =
        ⟨false, strL "Message must be at least 10 characters long", none⟩) ∧
    (5000 < (pyStrip m).length →
      validate_message (some m) =
        ⟨false, strL "Message must not exceed 5000 characters", none⟩) := by
  refine ⟨?_, ?_, ?_⟩
  · intro hlo hhi hf
    rw [validate_message]
    rw [if_neg hne, if_neg (by omega), if_neg (by omega), if_neg (by simp [hf])]
  · intro hlt
    rw [validate_message]
    rw [if_neg hne, if_pos hlt]
  · intro hgt
    rw [validate_message]
    rw [if_neg hne, if_neg (by omega), if_pos (by omega)]

/-- Witness for the amended claim C4: a valid message surrounded by
whitespace. -/
theorem claim_C4_witness :
    validate_message (some (strL " Take two tablets twice daily ")) =
      ⟨true, strL "Message is valid",
        some (strL "Take two tablets twice daily")⟩ := by
  have h := (claim_C4_amended (strL " Take two tablets twice daily ")
    (by decide)).1 (by decide) (by decide) (by decide)
  rw [h]
  decide

/-- Claim C9: `extract_text_from_pdf` is total at its boundary — whenever
the body of the operation raises (which, with every inner helper
catching its own exceptions, can only happen at the two `file.seek(0)`
calls), the call returns the failure result carrying that exception
message and empty text instead of propagating. -/
theorem claim_C9_total (f : PdfFile) (det : Detector) (e : List Char)
    (h : extractBody f det = Except.error e) :
    extract_text_from_pdf f det = ⟨false, some e, [], none, none, none⟩ ∧
    (f.seekErr1 = some e ∨ (f.seekErr1 = none ∧ f.seekErr2 = some e)) := by
  constructor
  · rw [extract_text_from_pdf, h]
  · cases hs1 : f.seekErr1 with
    | some e1 =>
      left
      rw [extractBody, hs1] at h
      cases h
      rfl
    | none =>
      right
      refine ⟨rfl, ?_⟩
      by_cases hcond : (decide (extract_with_pdfplumber f.plumberDoc = []) ||
          decide ((pyStrip (extract_with_pdfplumber f.plumberDoc)).length < 10))
            = true
      · cases hs2 : f.seekErr2 with
        | some e2 =>
          have hb : extractBody f det = Except.error e2 := by
            rw [extractBody, hs1]
            simp only [hcond, hs2, if_true]
          rw [hb] at h
          cases h
          rfl
        | none =>
          exfalso
          by_cases hc2 : (decide (extract_with_pypdf2 f.pypdfDoc = []) ||
              decide ((pyStrip (extract_with_pypdf2 f.pypdfDoc)).length < 10))
                = true
          · have hb : extractBody f det = Except.ok extractionFailure := by
              rw [extractBody, hs1]
              simp only [hcond, hs2, hc2, if_true, extractionFailure]
            rw [hb] at h
            cases h
          · have hb : extractBody f det =
                Except.ok (extractionSuccess det (extract_with_pypdf2 f.pypdfDoc)) := by
              rw [extractBody, hs1]
              simp only [hcond, hs2, hc2, if_true, Bool.false_eq_true,
                if_false, extractionSuccess]
            rw [hb] at h
            cases h
      · exfalso
        rw [Bool.not_eq_true] at hcond
        by_cases hc2 : (decide (extract_with_pdfplumber f.plumberDoc = []) ||
            decide ((pyStrip (extract_with_pdfplumber f.plumberDoc)).length < 10))
              = true
        · rw [hcond] at hc2
          cases hc2
        · have hb : extractBody f det =
              Except.ok (extractionSuccess det (extract_with_pdfplumber f.plumberDoc)) := by
            rw [extractBody, hs1]
            simp only [hcond, Bool.false_eq_true, if_false, extractionSuccess]
          rw [hb] at h
          cases h

/-- Witness for claim C9: a file whose first seek raises. -/
theorem claim_C9_witness :
    extract_text_from_pdf c9file detNone =
      ⟨false, some (strL "seek failed"), [], none, none, none⟩ :=
  (claim_C9_total c9file detNone (strL "seek failed") rfl).1

/-- Counterexample to claim C10 as stated: `sanitize_input` is not
idempotent — removing the `javascript:` occurrence embedded in
`c10text` splices the surrounding characters into a fresh `javascript:`,
which only a second pass removes. -/
theorem claim_C10_counterexample :
    sanitize_input c10text = strL "javascript:" ∧
    sanitize_input (sanitize_input c10text) = [] ∧
    sanitize_input (sanitize_input c10text) ≠ sanitize_input c10text := by
  refine ⟨by decide, by decide, by decide⟩

/-- Amended claim C10: `sanitize_input` is idempotent on every input
whose sanitized output matches no forbidden pattern; in general one pass
need not be a fixed point, because removing a forbidden pattern can
create a new occurrence. -/
theorem claim_C10_amended (t : List Char)
    (h : forbiddenHit (sanitize_input t) = false) :
    sanitize_input (sanitize_input t) = sanitize_input t := by
  by_cases ht : t = []
  · subst ht; rfl
  · have hs_def : sanitize_input t =
        pyStrip (collapseWs (reSubAll matchEvtAt []
          (reSubAll matchJsAt [] (reSubAll matchScriptAt [] t)))) := by
      rw [sanitize_input, if_neg ht]
    by_cases hse : sanitize_input t = []
    · rw [hse]
      rfl
    · rw [forbiddenHit] at h
      simp only [Bool.or_eq_false_iff] at h
      have hwn : wsNormal (sanitize_input t) := by
        rw [hs_def]
        exact wsNormal_pyStrip _ (collapseWs_wsNormal _)
      have hfix : pyStrip (sanitize_input t) = sanitize_input t := by
        conv_lhs => rw [hs_def]
        rw [pyStrip_idem]
        exact hs_def.symm
      conv_lhs => rw [sanitize_input]
      rw [if_neg hse]
      show pyStrip (collapseWs (reSubAll matchEvtAt [] (reSubAll matchJsAt []
        (reSubAll matchScriptAt [] (sanitize_input t))))) = sanitize_input t
      rw [reSubAll_id _ _ _ h.1.1, reSubAll_id _ _ _ h.1.2,
        reSubAll_id _ _ _ h.2]
      rw [collapseWs_fix_of_wsNormal _ hwn]
      exact hfix

/-- Witness for the amended claim C10: an input with excess whitespace
and no forbidden patterns. -/
theorem claim_C10_witness :
    sanitize_input (sanitize_input (strL "hello   world")) =
      sanitize_input (strL "hello   world") :=
  claim_C10_amended _ (by decide)

end Meditalks
